import Mathlib

/-!
Verification of the AI-Skills automated engagement system.

This file gives a shallow embedding of the session-orchestration core of the
repository (the files automated.js and the unnamed bounded-campaign variant)
and proves or refutes the specified properties of profile generation, the
session worker, the telemetry/counter subsystem and the batch scheduler.

Randomness is modelled by passing the random draws as explicit arguments:
a draw of the form Math.floor(Math.random() * n) becomes a natural number
taken modulo n, and a raw Math.random() becomes a rational r with
0 <= r < 1. JavaScript numbers in the reference tables are exact decimal
literals, so they are embedded as rationals.
-/

/-! ## Connection reference table (automated.js lines 392-436) -/

/-- Connection descriptor as in the connectionTypes table. The source field
named type is rendered ctype because type is reserved in Lean. -/
structure Connection where
  ctype : String
  downlink : ℚ
  effectiveType : String
  rtt : ℕ
  description : String
deriving DecidableEq

/-- The connectionTypes table from the source, in order. -/
def connectionTypes : List Connection := [
  ⟨"fiber", 100, "4g", 10, "Fiber Broadband 100Mbps"⟩,
  ⟨"fiber", 50, "4g", 15, "Fiber Broadband 50Mbps"⟩,
  ⟨"fiber", 25, "4g", 20, "Fiber Broadband 25Mbps"⟩,
  ⟨"cable", 20, "4g", 25, "Cable Broadband 20Mbps"⟩,
  ⟨"cable", 15, "4g", 30, "Cable Broadband 15Mbps"⟩,
  ⟨"dsl", 8, "4g", 40, "DSL Broadband 8Mbps"⟩,
  ⟨"dsl", 4, "3g", 60, "DSL Broadband 4Mbps"⟩,
  ⟨"4g", 25, "4g", 30, "Jio 4G Premium"⟩,
  ⟨"4g", 15, "4g", 40, "Airtel 4G Plus"⟩,
  ⟨"4g", 12, "4g", 45, "Vi 4G Network"⟩,
  ⟨"4g", 10, "4g", 50, "BSNL 4G"⟩,
  ⟨"4g", 8, "4g", 55, "Standard 4G"⟩,
  ⟨"4g", 5, "4g", 70, "Budget 4G Plan"⟩,
  ⟨"5g", 200, "4g", 5, "Jio True 5G"⟩,
  ⟨"5g", 150, "4g", 8, "Airtel 5G Plus"⟩,
  ⟨"5g", 100, "4g", 10, "Vi 5G Ultra"⟩,
  ⟨"3g", 3, "3g", 150, "BSNL 3G"⟩,
  ⟨"3g", 2, "3g", 180, "Legacy 3G Network"⟩,
  ⟨"3g", mkRat 15 10, "3g", 200, "Rural 3G Connection"⟩,
  ⟨"2g", mkRat 5 10, "2g", 800, "EDGE Connection"⟩,
  ⟨"slow-2g", mkRat 25 100, "slow-2g", 1500, "GPRS Connection"⟩,
  ⟨"wifi", 50, "4g", 20, "Office WiFi"⟩,
  ⟨"wifi", 30, "4g", 25, "Home WiFi Premium"⟩,
  ⟨"wifi", 15, "4g", 35, "Home WiFi Standard"⟩,
  ⟨"wifi", 8, "4g", 50, "Public WiFi"⟩,
  ⟨"wifi", 5, "3g", 80, "Cafe WiFi"⟩,
  ⟨"satellite", 10, "4g", 600, "Satellite Internet"⟩,
  ⟨"satellite", 5, "3g", 800, "VSAT Connection"⟩]

/-- City lists used by getLocationTier (automated.js lines 483-501). -/
def tier1Cities : List String :=
  ["Mumbai", "New Delhi", "Bangalore", "Chennai", "Pune", "Hyderabad",
   "Kolkata", "Ahmedabad", "Gurgaon", "Noida"]

/-- The tier2 list from getLocationTier. -/
def tier2Cities : List String :=
  ["Surat", "Jaipur", "Lucknow", "Kanpur", "Nagpur", "Indore", "Bhopal",
   "Visakhapatnam", "Patna", "Vadodara", "Ludhiana", "Agra", "Nashik",
   "Faridabad", "Meerut", "Rajkot", "Varanasi", "Aurangabad", "Amritsar",
   "Allahabad", "Ranchi", "Howrah", "Coimbatore", "Jabalpur", "Gwalior",
   "Vijayawada", "Jodhpur", "Madurai", "Raipur", "Kota", "Chandigarh",
   "Guwahati", "Solapur", "Hubli", "Mysore", "Tiruchirappalli", "Salem",
   "Thiruvananthapuram", "Guntur", "Bikaner", "Amravati", "Jamshedpur",
   "Bhilai", "Cuttack", "Kochi", "Bhavnagar", "Dehradun", "Durgapur",
   "Asansol", "Kolhapur", "Ajmer", "Gulbarga", "Jamnagar", "Ujjain",
   "Siliguri", "Jhansi", "Jammu", "Mangalore", "Erode", "Belgaum",
   "Tirunelveli", "Udaipur"]

/-- getLocationTier (automated.js lines 483-501, identical in the bounded
variant): tier1 and tier2 membership checks, everything else is tier3. -/
def getLocationTier (cityName : String) : String :=
  if tier1Cities.contains cityName then "tier1"
  else if tier2Cities.contains cityName then "tier2"
  else "tier3"

/-- The filtered connection pool per tier, from the switch statement in
getRandomConnectionType (automated.js lines 445-474). -/
def tierFilter (locationTier : String) : List Connection :=
  if locationTier == "tier1" then
    connectionTypes.filter fun c =>
      (["fiber", "cable", "5g", "4g", "wifi"].contains c.ctype) &&
        decide ((5 : ℚ) ≤ c.downlink)
  else if locationTier == "tier2" then
    connectionTypes.filter fun c =>
      (["fiber", "cable", "4g", "3g", "wifi", "dsl"].contains c.ctype) &&
        decide ((2 : ℚ) ≤ c.downlink)
  else if locationTier == "tier3" then
    connectionTypes.filter fun c =>
      ["4g", "3g", "2g", "wifi", "dsl"].contains c.ctype
  else if locationTier == "rural" then
    connectionTypes.filter fun c =>
      (["4g", "3g", "2g", "satellite"].contains c.ctype) &&
        decide (c.downlink ≤ (10 : ℚ))
  else connectionTypes

/-- getRandomConnectionType: pick a uniformly random element of the filtered
pool. The random draw Math.floor(Math.random() * length) is modelled by an
arbitrary natural k reduced modulo the pool length. -/
def getRandomConnectionType (locationTier : String) (k : ℕ) : Connection :=
  (tierFilter locationTier).getD (k % (tierFilter locationTier).length)
    ⟨"", 0, "", 0, ""⟩

/-- Connection types the specification allows per tier (the sets appearing in
the filter of getRandomConnectionType). -/
def allowedTypes (tier : String) : List String :=
  if tier == "tier1" then ["fiber", "cable", "5g", "4g", "wifi"]
  else if tier == "tier2" then ["fiber", "cable", "4g", "3g", "wifi", "dsl"]
  else if tier == "tier3" then ["4g", "3g", "2g", "wifi", "dsl"]
  else ["4g", "3g", "2g", "satellite"]

/-- Downlink floor per tier from the same filters; tier3 and rural impose no
lower bound, so their floor is 0. -/
def tierFloor (tier : String) : ℚ :=
  if tier == "tier1" then 5 else if tier == "tier2" then 2 else 0

/-! ## IP and geolocation reference tables (automated.js lines 510-765) -/

/-- One entry of the indianIPData table. -/
structure IPEntry where
  ip : String
  isp : String
  city : String
  state : String
  pincode : String
  area : String
deriving DecidableEq

set_option maxHeartbeats 1600000 in
/-- The indianIPData table from the source, in order. -/
def indianIPData : List IPEntry := [
  ⟨"203.122.58.", "Bharti Airtel Ltd", "Mumbai", "Maharashtra", "400001", "Fort"⟩,
  ⟨"117.239.195.", "Reliance Jio Infocomm", "Mumbai", "Maharashtra", "400070", "Andheri"⟩,
  ⟨"103.21.58.", "Hathway Cable & Datacom", "Pune", "Maharashtra", "411001", "Shivaji Nagar"⟩,
  ⟨"203.109.137.", "You Broadband India", "Pune", "Maharashtra", "411014", "Hadapsar"⟩,
  ⟨"103.87.169.", "Spectranet Pvt Ltd", "Nagpur", "Maharashtra", "440001", "Civil Lines"⟩,
  ⟨"14.102.152.", "BSNL Maharashtra", "Nashik", "Maharashtra", "422001", "College Road"⟩,
  ⟨"49.14.89.", "Vi (Vodafone Idea)", "Aurangabad", "Maharashtra", "431001", "Cidco"⟩,
  ⟨"14.139.56.", "Bharti Airtel Ltd", "New Delhi", "Delhi", "110001", "Connaught Place"⟩,
  ⟨"115.242.174.", "Vi (Vodafone Idea)", "New Delhi", "Delhi", "110021", "Lajpat Nagar"⟩,
  ⟨"182.71.146.", "Excitel Broadband", "Gurgaon", "Haryana", "122001", "DLF Phase 1"⟩,
  ⟨"103.195.185.", "D-VoiS Broadband", "Noida", "Uttar Pradesh", "201301", "Sector 62"⟩,
  ⟨"157.119.188.", "Connect Broadband", "Faridabad", "Haryana", "121001", "Sector 15"⟩,
  ⟨"122.180.155.", "Jio Fiber", "Ghaziabad", "Uttar Pradesh", "201001", "Raj Nagar"⟩,
  ⟨"27.109.13.", "GTPL Hathway", "Delhi", "Delhi", "110092", "Dwarka"⟩,
  ⟨"152.58.96.", "BSNL Karnataka", "Bangalore", "Karnataka", "560001", "MG Road"⟩,
  ⟨"122.161.49.", "ACT Fibernet", "Bangalore", "Karnataka", "560025", "Koramangala"⟩,
  ⟨"103.76.253.", "Atria Convergence Technologies", "Mysore", "Karnataka", "570001", "Sayyaji Rao Road"⟩,
  ⟨"45.118.132.", "Tata Play Fiber", "Mangalore", "Karnataka", "575001", "Hampankatta"⟩,
  ⟨"103.99.177.", "Bharti Airtel Fiber", "Hubli", "Karnataka", "580020", "Vidyanagar"⟩,
  ⟨"49.43.84.", "Bharti Airtel Ltd", "Chennai", "Tamil Nadu", "600001", "T. Nagar"⟩,
  ⟨"103.195.185.", "Siti Cable Network", "Chennai", "Tamil Nadu", "600034", "Adyar"⟩,
  ⟨"45.248.77.", "Railtel Corporation of India", "Coimbatore", "Tamil Nadu", "641001", "RS Puram"⟩,
  ⟨"117.241.35.", "BSNL Tamil Nadu", "Madurai", "Tamil Nadu", "625001", "Anna Nagar"⟩,
  ⟨"14.142.112.", "Jio Fiber", "Salem", "Tamil Nadu", "636001", "Fairlands"⟩,
  ⟨"115.242.174.", "Vi (Vodafone Idea)", "Hyderabad", "Telangana", "500001", "Abids"⟩,
  ⟨"203.192.228.", "GTPL Hathway Ltd", "Hyderabad", "Telangana", "500081", "Gachibowli"⟩,
  ⟨"117.239.195.", "Reliance Jio Infocomm", "Visakhapatnam", "Andhra Pradesh", "530001", "Dwaraka Nagar"⟩,
  ⟨"27.5.102.", "Airtel Fiber", "Vijayawada", "Andhra Pradesh", "520001", "Governorpet"⟩,
  ⟨"122.161.49.", "Alliance Broadband Services", "Kolkata", "West Bengal", "700001", "Park Street"⟩,
  ⟨"103.76.253.", "Wishnet Pvt Ltd", "Kolkata", "West Bengal", "700091", "Salt Lake"⟩,
  ⟨"157.119.188.", "Cal Broadband Networks", "Durgapur", "West Bengal", "713201", "City Center"⟩,
  ⟨"182.74.200.", "BSNL West Bengal", "Siliguri", "West Bengal", "734001", "Hill Cart Road"⟩,
  ⟨"49.43.84.", "Tikona Digital Networks", "Ahmedabad", "Gujarat", "380001", "Navrangpura"⟩,
  ⟨"103.21.58.", "Gujarat Telelink Pvt Ltd", "Surat", "Gujarat", "395001", "Nanpura"⟩,
  ⟨"203.122.58.", "Bharti Airtel Ltd", "Vadodara", "Gujarat", "390001", "Alkapuri"⟩,
  ⟨"115.99.248.", "Jio Fiber", "Rajkot", "Gujarat", "360001", "Race Course"⟩,
  ⟨"103.195.185.", "Siti Cable Network", "Jaipur", "Rajasthan", "302001", "C Scheme"⟩,
  ⟨"115.242.174.", "Vi (Vodafone Idea)", "Jodhpur", "Rajasthan", "342001", "Sardarpura"⟩,
  ⟨"27.109.14.", "BSNL Rajasthan", "Udaipur", "Rajasthan", "313001", "Fateh Sagar"⟩,
  ⟨"14.140.137.", "Airtel Fiber", "Kota", "Rajasthan", "324001", "Vigyan Nagar"⟩,
  ⟨"45.248.77.", "Asianet Broadband", "Kochi", "Kerala", "682001", "Marine Drive"⟩,
  ⟨"103.87.169.", "BSNL Kerala", "Thiruvananthapuram", "Kerala", "695001", "Palayam"⟩,
  ⟨"122.164.253.", "Asianet Cable Vision", "Kozhikode", "Kerala", "673001", "Mavoor Road"⟩,
  ⟨"117.241.8.", "Jio Fiber", "Thrissur", "Kerala", "680001", "Round South"⟩,
  ⟨"182.71.146.", "Connect Broadband", "Ludhiana", "Punjab", "141001", "Model Town"⟩,
  ⟨"203.109.137.", "Netplus Broadband", "Amritsar", "Punjab", "143001", "Lawrence Road"⟩,
  ⟨"115.186.128.", "BSNL Punjab", "Jalandhar", "Punjab", "144001", "Civil Lines"⟩,
  ⟨"49.15.193.", "Airtel Broadband", "Patiala", "Punjab", "147001", "Leela Bhawan"⟩,
  ⟨"157.119.188.", "Alliance Broadband Services", "Bhubaneswar", "Odisha", "751001", "Saheed Nagar"⟩,
  ⟨"103.76.253.", "BSNL Odisha", "Cuttack", "Odisha", "753001", "Buxi Bazaar"⟩,
  ⟨"27.109.115.", "Jio Fiber", "Berhampur", "Odisha", "760001", "Brahmapur"⟩,
  ⟨"203.109.137.", "You Broadband India", "Indore", "Madhya Pradesh", "452001", "Vijay Nagar"⟩,
  ⟨"49.43.84.", "Bharti Airtel Ltd", "Bhopal", "Madhya Pradesh", "462001", "MP Nagar"⟩,
  ⟨"14.140.156.", "BSNL MP", "Jabalpur", "Madhya Pradesh", "482001", "Wright Town"⟩,
  ⟨"115.240.113.", "Jio Fiber", "Gwalior", "Madhya Pradesh", "474001", "Lashkar"⟩,
  ⟨"117.239.195.", "Reliance Jio Infocomm", "Lucknow", "Uttar Pradesh", "226001", "Hazratganj"⟩,
  ⟨"115.242.174.", "Vi (Vodafone Idea)", "Kanpur", "Uttar Pradesh", "208001", "The Mall"⟩,
  ⟨"14.139.198.", "BSNL UP West", "Agra", "Uttar Pradesh", "282001", "Sadar Bazaar"⟩,
  ⟨"49.15.241.", "Airtel Fiber", "Varanasi", "Uttar Pradesh", "221001", "Cantonment"⟩,
  ⟨"182.68.144.", "Jio Fiber", "Meerut", "Uttar Pradesh", "250001", "Sadar Bazar"⟩,
  ⟨"152.58.96.", "BSNL Bihar", "Patna", "Bihar", "800001", "Boring Road"⟩,
  ⟨"103.213.241.", "Jio Fiber", "Gaya", "Bihar", "823001", "Ramna Road"⟩,
  ⟨"27.109.14.", "Airtel Broadband", "Bhagalpur", "Bihar", "812001", "Sultanganj Road"⟩,
  ⟨"45.248.77.", "Railtel Corporation", "Guwahati", "Assam", "781001", "Fancy Bazaar"⟩,
  ⟨"103.89.136.", "BSNL Assam", "Dibrugarh", "Assam", "786001", "Graham Bazaar"⟩,
  ⟨"14.142.128.", "Jio Fiber", "Silchar", "Assam", "788001", "Rangirkhari"⟩,
  ⟨"115.242.174.", "Vi (Vodafone Idea)", "Ranchi", "Jharkhand", "834001", "Main Road"⟩,
  ⟨"122.252.252.", "BSNL Jharkhand", "Jamshedpur", "Jharkhand", "831001", "Bistupur"⟩,
  ⟨"49.15.67.", "Airtel Fiber", "Dhanbad", "Jharkhand", "826001", "Bank More"⟩,
  ⟨"103.21.58.", "Syscon Infoway Pvt Ltd", "Raipur", "Chhattisgarh", "492001", "Civil Lines"⟩,
  ⟨"14.140.189.", "BSNL Chhattisgarh", "Bhilai", "Chhattisgarh", "490001", "Sector 1"⟩,
  ⟨"115.240.35.", "Jio Fiber", "Bilaspur", "Chhattisgarh", "495001", "Link Road"⟩,
  ⟨"103.21.58.", "Syscon Infoway Pvt Ltd", "Dehradun", "Uttarakhand", "248001", "Rajpur Road"⟩,
  ⟨"27.109.14.", "BSNL Uttarakhand", "Haridwar", "Uttarakhand", "249401", "Railway Road"⟩,
  ⟨"49.15.193.", "Airtel Broadband", "Nainital", "Uttarakhand", "263001", "Mallital"⟩,
  ⟨"115.242.174.", "Vi (Vodafone Idea)", "Chandigarh", "Chandigarh", "160001", "Sector 17"⟩,
  ⟨"103.89.136.", "BSNL Himachal", "Shimla", "Himachal Pradesh", "171001", "The Mall"⟩,
  ⟨"14.142.128.", "Jio Fiber", "Jammu", "Jammu and Kashmir", "180001", "Gandhi Nagar"⟩,
  ⟨"122.252.252.", "BSNL J&K", "Srinagar", "Jammu and Kashmir", "190001", "Lal Chowk"⟩,
  ⟨"103.213.241.", "Jio Fiber", "Panaji", "Goa", "403001", "Miramar"⟩,
  ⟨"27.109.115.", "BSNL Goa", "Margao", "Goa", "403601", "Fatorda"⟩,
  ⟨"49.15.67.", "Airtel Fiber", "Puducherry", "Puducherry", "605001", "MG Road"⟩]

/-- The indianCoordinates object from getRandomCoordinatesForCity, as an
association list in source order. The source object literal repeats the keys
Gurgaon and Noida with identical values; the duplicates are kept and lookup
takes the first binding, which matches the JavaScript object semantics here
because the values coincide. -/
def indianCoordinates : List (String × (ℚ × ℚ)) := [
  ("Mumbai", (mkRat 190760 10000, mkRat 728777 10000)),
  ("New Delhi", (mkRat 287041 10000, mkRat 771025 10000)),
  ("Bangalore", (mkRat 129716 10000, mkRat 775946 10000)),
  ("Chennai", (mkRat 130827 10000, mkRat 802707 10000)),
  ("Pune", (mkRat 185204 10000, mkRat 738567 10000)),
  ("Hyderabad", (mkRat 173850 10000, mkRat 784867 10000)),
  ("Kolkata", (mkRat 225726 10000, mkRat 883639 10000)),
  ("Ahmedabad", (mkRat 230225 10000, mkRat 725714 10000)),
  ("Gurgaon", (mkRat 284595 10000, mkRat 770266 10000)),
  ("Noida", (mkRat 285355 10000, mkRat 773910 10000)),
  ("Surat", (mkRat 211702 10000, mkRat 728311 10000)),
  ("Jaipur", (mkRat 269124 10000, mkRat 757873 10000)),
  ("Lucknow", (mkRat 268467 10000, mkRat 809462 10000)),
  ("Kanpur", (mkRat 264499 10000, mkRat 803319 10000)),
  ("Nagpur", (mkRat 211458 10000, mkRat 790882 10000)),
  ("Indore", (mkRat 227196 10000, mkRat 758577 10000)),
  ("Bhopal", (mkRat 232599 10000, mkRat 774126 10000)),
  ("Visakhapatnam", (mkRat 176868 10000, mkRat 832185 10000)),
  ("Patna", (mkRat 255941 10000, mkRat 851376 10000)),
  ("Vadodara", (mkRat 223072 10000, mkRat 731812 10000)),
  ("Ludhiana", (mkRat 309009 10000, mkRat 758573 10000)),
  ("Agra", (mkRat 271767 10000, mkRat 780081 10000)),
  ("Nashik", (mkRat 199975 10000, mkRat 737898 10000)),
  ("Faridabad", (mkRat 284089 10000, mkRat 773178 10000)),
  ("Meerut", (mkRat 289845 10000, mkRat 777064 10000)),
  ("Rajkot", (mkRat 223039 10000, mkRat 708022 10000)),
  ("Kalyan-Dombivali", (mkRat 192403 10000, mkRat 731305 10000)),
  ("Vasai-Virar", (mkRat 194914 10000, mkRat 728054 10000)),
  ("Varanasi", (mkRat 253176 10000, mkRat 829739 10000)),
  ("Srinagar", (mkRat 340837 10000, mkRat 747973 10000)),
  ("Aurangabad", (mkRat 198762 10000, mkRat 753433 10000)),
  ("Dhanbad", (mkRat 237957 10000, mkRat 864304 10000)),
  ("Amritsar", (mkRat 316340 10000, mkRat 748723 10000)),
  ("Navi Mumbai", (mkRat 190330 10000, mkRat 730297 10000)),
  ("Allahabad", (mkRat 254358 10000, mkRat 818463 10000)),
  ("Ranchi", (mkRat 233441 10000, mkRat 853096 10000)),
  ("Howrah", (mkRat 225958 10000, mkRat 882636 10000)),
  ("Coimbatore", (mkRat 110168 10000, mkRat 769558 10000)),
  ("Jabalpur", (mkRat 231815 10000, mkRat 799864 10000)),
  ("Gwalior", (mkRat 262183 10000, mkRat 781828 10000)),
  ("Vijayawada", (mkRat 165062 10000, mkRat 806480 10000)),
  ("Jodhpur", (mkRat 262389 10000, mkRat 730243 10000)),
  ("Madurai", (mkRat 99252 10000, mkRat 781198 10000)),
  ("Raipur", (mkRat 212514 10000, mkRat 816296 10000)),
  ("Kota", (mkRat 252138 10000, mkRat 758648 10000)),
  ("Chandigarh", (mkRat 307333 10000, mkRat 767794 10000)),
  ("Guwahati", (mkRat 261445 10000, mkRat 917362 10000)),
  ("Solapur", (mkRat 176599 10000, mkRat 759064 10000)),
  ("Hubli", (mkRat 153647 10000, mkRat 751240 10000)),
  ("Bareilly", (mkRat 283670 10000, mkRat 794304 10000)),
  ("Moradabad", (mkRat 288386 10000, mkRat 787733 10000)),
  ("Mysore", (mkRat 122958 10000, mkRat 766394 10000)),
  ("Gurgaon", (mkRat 284595 10000, mkRat 770266 10000)),
  ("Aligarh", (mkRat 278974 10000, mkRat 780880 10000)),
  ("Jalandhar", (mkRat 313260 10000, mkRat 755762 10000)),
  ("Tiruchirappalli", (mkRat 107905 10000, mkRat 787047 10000)),
  ("Bhubaneswar", (mkRat 202961 10000, mkRat 858245 10000)),
  ("Salem", (mkRat 116643 10000, mkRat 781460 10000)),
  ("Mira-Bhayandar", (mkRat 192952 10000, mkRat 728544 10000)),
  ("Warangal", (mkRat 179689 10000, mkRat 795941 10000)),
  ("Thiruvananthapuram", (mkRat 85241 10000, mkRat 769366 10000)),
  ("Guntur", (mkRat 163067 10000, mkRat 804365 10000)),
  ("Bhiwandi", (mkRat 193002 10000, mkRat 730637 10000)),
  ("Saharanpur", (mkRat 299680 10000, mkRat 775552 10000)),
  ("Gorakhpur", (mkRat 267606 10000, mkRat 833732 10000)),
  ("Bikaner", (mkRat 280229 10000, mkRat 733119 10000)),
  ("Amravati", (mkRat 209374 10000, mkRat 777796 10000)),
  ("Noida", (mkRat 285355 10000, mkRat 773910 10000)),
  ("Jamshedpur", (mkRat 228046 10000, mkRat 862029 10000)),
  ("Bhilai Nagar", (mkRat 211938 10000, mkRat 813509 10000)),
  ("Cuttack", (mkRat 204625 10000, mkRat 858828 10000)),
  ("Firozabad", (mkRat 271592 10000, mkRat 783957 10000)),
  ("Kochi", (mkRat 99312 10000, mkRat 762673 10000)),
  ("Bhavnagar", (mkRat 217645 10000, mkRat 721519 10000)),
  ("Dehradun", (mkRat 303165 10000, mkRat 780322 10000)),
  ("Durgapur", (mkRat 234803 10000, mkRat 873119 10000)),
  ("Asansol", (mkRat 236739 10000, mkRat 869924 10000)),
  ("Nanded", (mkRat 191383 10000, mkRat 772975 10000)),
  ("Kolhapur", (mkRat 167050 10000, mkRat 742433 10000)),
  ("Ajmer", (mkRat 264499 10000, mkRat 746399 10000)),
  ("Akola", (mkRat 207002 10000, mkRat 770082 10000)),
  ("Gulbarga", (mkRat 173297 10000, mkRat 768343 10000)),
  ("Jamnagar", (mkRat 224707 10000, mkRat 700577 10000)),
  ("Ujjain", (mkRat 231765 10000, mkRat 757885 10000)),
  ("Loni", (mkRat 287333 10000, mkRat 772833 10000)),
  ("Siliguri", (mkRat 267271 10000, mkRat 883953 10000)),
  ("Jhansi", (mkRat 254484 10000, mkRat 785685 10000)),
  ("Ulhasnagar", (mkRat 192183 10000, mkRat 731535 10000)),
  ("Jammu", (mkRat 327266 10000, mkRat 748570 10000)),
  ("Sangli-Miraj", (mkRat 168524 10000, mkRat 745815 10000)),
  ("Mangalore", (mkRat 129141 10000, mkRat 748560 10000)),
  ("Erode", (mkRat 113410 10000, mkRat 777172 10000)),
  ("Belgaum", (mkRat 158497 10000, mkRat 744977 10000)),
  ("Ambattur", (mkRat 131143 10000, mkRat 801548 10000)),
  ("Tirunelveli", (mkRat 87139 10000, mkRat 777567 10000)),
  ("Malegaon", (mkRat 205579 10000, mkRat 745287 10000)),
  ("Gaya", (mkRat 247914 10000, mkRat 850002 10000)),
  ("Jalgaon", (mkRat 210077 10000, mkRat 755626 10000)),
  ("Udaipur", (mkRat 245854 10000, mkRat 737125 10000)),
  ("Maheshtala", (mkRat 224983 10000, mkRat 882483 10000))]

/-- Lookup of a city in the canonical coordinates table, with no fallback. -/
def coordLookup (cityName : String) : Option (ℚ × ℚ) :=
  (indianCoordinates.find? fun e => e.1 == cityName).map (fun e => e.2)

/-- getRandomCoordinatesForCity (automated.js lines 654-765): canonical point
of the city, falling back to the Mumbai entry when the city is absent from
the table, plus a uniform jitter of (r - 0.5) * 0.01 per axis, where r is the
Math.random() draw for that axis. -/
def getRandomCoordinatesForCity (cityName : String) (r1 r2 : ℚ) : ℚ × ℚ :=
  let coords := (coordLookup cityName).getD (mkRat 190760 10000, mkRat 728777 10000)
  (coords.1 + (r1 - mkRat 1 2) * mkRat 1 100,
   coords.2 + (r2 - mkRat 1 2) * mkRat 1 100)

/-- Result of generateIndianIPData. -/
structure IPGeo where
  ip : String
  isp : String
  city : String
  state : String
  pincode : String
  area : String
  country : String
  countryCode : String
  latitude : ℚ
  longitude : ℚ
deriving DecidableEq

/-- generateIndianIPData (automated.js lines 634-651): pick one IP record
uniformly (draw i), append a last octet in 1..254 (draw octet), and call
getRandomCoordinatesForCity twice, keeping the latitude of the first call and
the longitude of the second, exactly as the source does; r1 r2 are the two
jitter draws of the first call and r3 r4 those of the second. -/
def generateIndianIPData (i octet : ℕ) (r1 r2 r3 r4 : ℚ) : IPGeo :=
  let ipData := indianIPData.getD (i % indianIPData.length)
    ⟨"", "", "", "", "", ""⟩
  let lastOctet := octet % 254 + 1
  { ip := ipData.ip ++ toString lastOctet
    isp := ipData.isp
    city := ipData.city
    state := ipData.state
    pincode := ipData.pincode
    area := ipData.area
    country := "India"
    countryCode := "IN"
    latitude := (getRandomCoordinatesForCity ipData.city r1 r2).1
    longitude := (getRandomCoordinatesForCity ipData.city r3 r4).2 }

/-! ## Telemetry recorder and session worker
(automated.js lines 43-95 and 1062-1411; bounded variant lines 44-88 and
1057-1258)

The telemetry state holds the global click counter, the in-memory report
array (represented by the list of assigned clickNumber values) and the number
of rows appended so far to the incremental data.csv log. -/

/-- Shared mutable telemetry state: globalClickCounter, clickReportData
(only the clickNumber of each record is tracked) and the csv row count. -/
structure TelemetryState where
  globalClickCounter : ℕ
  clickReportData : List ℕ
  csvRows : ℕ
deriving DecidableEq

/-- addClickRecord (automated.js lines 79-95): build the record with the
current (already incremented) counter value as clickNumber and push it, then
attempt the incremental CSV append; a failing append (csvWriteOk = false) is
caught inside addClickRecord and only logged, so the in-memory record is
kept either way. -/
def addClickRecord (s : TelemetryState) (csvWriteOk : Bool) : TelemetryState :=
  { globalClickCounter := s.globalClickCounter
    clickReportData := s.clickReportData ++ [s.globalClickCounter]
    csvRows := s.csvRows + if csvWriteOk then 1 else 0 }

/-- incrementClickCounter (automated.js lines 43-65): increment the counter,
append the record, and every 25 clicks run generateCSVReport. The increment,
the read of the counter into clickNumber and the push of the record run with
no intervening await, so in the single-threaded event loop they form one
uninterruptible block; the awaits (CSV append, report write, the pacing
delay every 10 clicks) come only after the push. generateCSVReport rethrows
its write error and the call site does not guard it, so a failed snapshot
write (reportWriteOk = false) escapes incrementClickCounter as an exception,
modelled by the Except component; the state mutations have already happened
at that point. -/
def incrementClickCounter (s : TelemetryState) (csvWriteOk reportWriteOk : Bool) :
    TelemetryState × Except Unit Bool :=
  let s2 := addClickRecord
    { s with globalClickCounter := s.globalClickCounter + 1 } csvWriteOk
  (s2, if s2.globalClickCounter % 25 == 0 && !reportWriteOk then
    Except.error () else Except.ok true)

/-- incrementClickCounter of the bounded variant (lines 44-58): increment,
append, and return whether the campaign should continue (counter still below
maxClicks); the final generateCSVReport call at the limit is covered by the
same Except convention as above but is not needed for the claims, so the
bounded model returns only the continue flag. -/
def incrementClickCounterBounded (s : TelemetryState) (csvWriteOk : Bool)
    (maxClicks : ℕ) : TelemetryState × Bool :=
  let s2 := addClickRecord
    { s with globalClickCounter := s.globalClickCounter + 1 } csvWriteOk
  (s2, decide (s2.globalClickCounter < maxClicks))

/-- Outcome of the external operations one session worker performs: whether
puppeteer.launch, browser.newPage and page.goto succeed, whether the
interaction block throws, and whether the two telemetry writes succeed. -/
structure WorkerOutcome where
  launchOk : Bool
  newPageOk : Bool
  navOk : Bool
  interactionThrows : Bool
  csvWriteOk : Bool
  reportWriteOk : Bool
deriving DecidableEq

/-- Observable result of one worker invocation: final telemetry state, how
many records this worker appended, whether any error escaped the worker into
the scheduler loop, and the acquire/release status of the browser and page
handles after the finally block ran. -/
structure WorkerRun where
  state : TelemetryState
  recordsAdded : ℕ
  propagatedToScheduler : Bool
  browserAcquired : Bool
  browserReleased : Bool
  pageAcquired : Bool
  pageReleased : Bool
deriving DecidableEq

/-- createClickWorker (automated.js lines 1062-1411), one branch per exit
path of the try/catch/finally:
* launch throws: browser and page stay null, the catch logs, the finally
  closes nothing, incrementClickCounter is never reached;
* newPage throws: only the browser was acquired and the finally closes it;
* goto throws (navigation timeout): page and browser were acquired and the
  finally closes both; the catch logs and no record is appended;
* otherwise the interaction block runs; its own catch swallows interaction
  errors (the worker then just waits the fallback delay), so the worker
  always reaches incrementClickCounter, appending exactly one record; if the
  periodic snapshot write inside it throws, that error unwinds to the worker
  catch, which logs it, and the finally still closes both handles.
No branch lets an error escape to the scheduler loop. -/
def createClickWorker (s : TelemetryState) (o : WorkerOutcome) : WorkerRun :=
  if !o.launchOk then
    { state := s, recordsAdded := 0, propagatedToScheduler := false
      browserAcquired := false, browserReleased := false
      pageAcquired := false, pageReleased := false }
  else if !o.newPageOk then
    { state := s, recordsAdded := 0, propagatedToScheduler := false
      browserAcquired := true, browserReleased := true
      pageAcquired := false, pageReleased := false }
  else if !o.navOk then
    { state := s, recordsAdded := 0, propagatedToScheduler := false
      browserAcquired := true, browserReleased := true
      pageAcquired := true, pageReleased := true }
  else
    let s2 := (incrementClickCounter s o.csvWriteOk o.reportWriteOk).1
    { state := s2, recordsAdded := 1, propagatedToScheduler := false
      browserAcquired := true, browserReleased := true
      pageAcquired := true, pageReleased := true }

/-- createTabWorker of the bounded variant (lines 1057-1258). The exit paths
are the same as createClickWorker except that on the success path the worker
checks the continue flag returned by incrementClickCounter and throws
MAX_CLICKS_REACHED when the budget is reached; that throw happens after the
record was appended, is caught by the worker catch, and the finally still
closes both handles. -/
def createTabWorker (s : TelemetryState) (o : WorkerOutcome) (maxClicks : ℕ) :
    WorkerRun :=
  if !o.launchOk then
    { state := s, recordsAdded := 0, propagatedToScheduler := false
      browserAcquired := false, browserReleased := false
      pageAcquired := false, pageReleased := false }
  else if !o.newPageOk then
    { state := s, recordsAdded := 0, propagatedToScheduler := false
      browserAcquired := true, browserReleased := true
      pageAcquired := false, pageReleased := false }
  else if !o.navOk then
    { state := s, recordsAdded := 0, propagatedToScheduler := false
      browserAcquired := true, browserReleased := true
      pageAcquired := true, pageReleased := true }
  else
    let r := incrementClickCounterBounded s o.csvWriteOk maxClicks
    if r.2 then
      { state := r.1, recordsAdded := 1, propagatedToScheduler := false
        browserAcquired := true, browserReleased := true
        pageAcquired := true, pageReleased := true }
    else
      -- budget reached: the worker throws MAX_CLICKS_REACHED, which its own
      -- catch absorbs; the record is already appended and the finally runs
      { state := r.1, recordsAdded := 1, propagatedToScheduler := false
        browserAcquired := true, browserReleased := true
        pageAcquired := true, pageReleased := true }

/-- A completion schedule for claim C2: each worker that reaches its
completion executes the increment and append block once; the block is
uninterruptible (see incrementClickCounter), so an arbitrary concurrent
interleaving of N completing workers is exactly a sequence of N such blocks
in some order. The list ws carries the worker identities in completion
order; the block itself does not depend on the identity. -/
def runCompletions (ws : List ℕ) (s : TelemetryState) : TelemetryState :=
  ws.foldl (fun st _ => (incrementClickCounter st true true).1) s

/-! ## Batch scheduler of the bounded campaign
(bounded variant lines 60-66, 1260-1283, 1331-1370)

The scheduler state tracks the shared completed-count (globalClickCounter as
seen by shouldContinue) and the number of in-flight workers. Dispatch is
guarded: openEnhancedTabs checks shouldContinue immediately before pushing a
worker, with no suspension point in between, and the batching keeps at most
C workers in flight across all concurrently running per-URL schedulers.
Every in-flight worker either completes successfully, incrementing the
counter by one (incrementClickCounter increments before it checks the
limit), or fails without incrementing. -/

/-- Shared scheduler state of the bounded campaign. -/
structure SchedState where
  completed : ℕ
  inflight : ℕ
deriving DecidableEq

/-- One scheduler transition of the bounded campaign with budget M and
total concurrency limit C. -/
inductive SchedStep (M C : ℕ) : SchedState → SchedState → Prop where
  | dispatch (s : SchedState) (hM : s.completed < M) (hC : s.inflight < C) :
      SchedStep M C s ⟨s.completed, s.inflight + 1⟩
  | completeSuccess (s : SchedState) (h : 0 < s.inflight) :
      SchedStep M C s ⟨s.completed + 1, s.inflight - 1⟩
  | completeFailure (s : SchedState) (h : 0 < s.inflight) :
      SchedStep M C s ⟨s.completed, s.inflight - 1⟩

/-- States reachable from the start of a bounded campaign. -/
inductive SchedReachable (M C : ℕ) : SchedState → Prop where
  | init : SchedReachable M C ⟨0, 0⟩
  | step {s t : SchedState} :
      SchedReachable M C s → SchedStep M C s t → SchedReachable M C t

/-! ## One cycle of the bounded campaign orchestrator
(bounded variant lines 1331-1354)

runEnhancedAutomation maps an async arrow over the URL list. Each arrow runs
synchronously up to its first suspension: it checks shouldContinue and then
openEnhancedTabs dispatches the first worker for its URL before suspending
at Promise.allSettled. Because a completion can only happen inside a resumed
await, the whole dispatch prefix runs before any completion, in URL-list
order. With numberOfTabsPerUrl = 1 each URL has exactly one worker; a
completion appends one record for its URL and increments the counter. -/

/-- State of one cycle: the shared counter, the appended records (URL index
per record), the in-flight URL workers and the dispatch order of the first
attempts. -/
structure CycleState where
  completed : ℕ
  records : List ℕ
  inflight : List ℕ
  dispatched : List ℕ
deriving DecidableEq

/-- The shouldContinue check and first dispatch of the per-URL arrow for URL
index i. -/
def dispatchStep (M : ℕ) (s : CycleState) (i : ℕ) : CycleState :=
  if s.completed < M then
    { s with inflight := s.inflight ++ [i], dispatched := s.dispatched ++ [i] }
  else s

/-- The synchronous dispatch prefix of a cycle over n URLs with budget M:
each per-URL arrow checks shouldContinue (completed < M) and dispatches its
first worker, in URL-list order. -/
def dispatchPhase (n M : ℕ) : CycleState :=
  (List.range n).foldl (dispatchStep M) ⟨0, [], [], []⟩

/-- A successful completion of the worker of URL i: the uninterruptible
increment and append block runs and the worker leaves the in-flight set.
Events naming a URL with no in-flight worker do nothing. -/
def completeEvent (s : CycleState) (i : ℕ) : CycleState :=
  if i ∈ s.inflight then
    { completed := s.completed + 1
      records := s.records ++ [i]
      inflight := s.inflight.erase i
      dispatched := s.dispatched }
  else s

/-- One cycle of the bounded campaign over n URLs with budget M, with the
workers completing successfully in the given order. -/
def runCycle (n M : ℕ) (order : List ℕ) : CycleState :=
  order.foldl completeEvent (dispatchPhase n M)

/-! ## Interaction element selection (automated.js lines 1126-1313)

A page is a list of elements; each element carries the attributes the
selectors inspect and a flag saying whether clicking it succeeds. The
selection functions return the index of the clicked element. -/

/-- A DOM element as seen by the selector strategies. -/
structure Elem where
  tag : String
  typeAttr : String
  text : String
  onclick : String
  className : String
  idAttr : String
  role : String
  clickable : Bool
deriving DecidableEq

/-- Default element used for out-of-range list access. -/
def defaultElem : Elem := ⟨"", "", "", "", "", "", "", false⟩

/-- Substring check on character lists. -/
def subListAux (pat : List Char) : List Char → Bool
  | [] => pat.isEmpty
  | c :: rest => pat.isPrefixOf (c :: rest) || subListAux pat rest

/-- JavaScript String.includes on strings. -/
def strContains (s pat : String) : Bool := subListAux pat.toList s.toList

/-- ASCII lowercasing on a character code, for the toLowerCase the code
applies to button text before the keyword check. -/
def lowerNat (c : Char) : ℕ :=
  if 65 ≤ c.toNat ∧ c.toNat ≤ 90 then c.toNat + 32 else c.toNat

/-- Substring check on character codes. -/
def subNatAux (pat : List ℕ) : List ℕ → Bool
  | [] => pat.isEmpty
  | c :: rest => pat.isPrefixOf (c :: rest) || subNatAux pat rest

/-- Case-insensitive JavaScript includes: both the text and the pattern are
lowercased before the substring check (the keywords of the code are already
lower case, so lowercasing the pattern too is the identity there). -/
def strContainsLower (s pat : String) : Bool :=
  subNatAux (pat.toList.map lowerNat) (s.toList.map lowerNat)

/-- CSS-selector style click attempt: the code iterates the matching
elements and clicks each until one click succeeds, so the result is the
first matching clickable element. -/
def clickCss (p : List Elem) (m : Elem → Bool) : Option ℕ :=
  p.findIdx? fun e => m e && e.clickable

/-- Text-based pseudo-selector attempt for one keyword: the code loops over
all buttons, clicks the first whose lowercased text contains the keyword and
breaks out of the loop; a failing click on that button aborts the whole
selector (the per-selector catch moves on to the next selector), so only
the first text match is tried. -/
def clickContains (p : List Elem) (kw : String) : Option ℕ :=
  match p.findIdx? fun e =>
      e.tag == "button" && strContainsLower e.text kw with
  | some i => if (p.getD i defaultElem).clickable then some i else none
  | none => none

/-- The final any-clickable fallback: collect every potentially clickable
element, keep the first three candidates, and click the first of those whose
click succeeds. -/
def clickAnyClickable (p : List Elem) : Option ℕ :=
  (((p.enum.filter fun ie =>
      ie.2.tag == "button" ||
      (ie.2.tag == "input" && ie.2.typeAttr == "button") ||
      (ie.2.tag == "input" && ie.2.typeAttr == "submit") ||
      ie.2.onclick != "" || ie.2.role == "button").take 3).find?
    fun ie => ie.2.clickable).map fun ie => ie.1

/-- First selector in the list that yields a clicked element. -/
def firstSome : List (List Elem → Option ℕ) → List Elem → Option ℕ
  | [], _ => none
  | f :: fs, p =>
    match f p with
    | some i => some i
    | none => firstSome fs p

/-- The two structural submit selectors opening the submitSelectors list
(automated.js lines 1148-1149). -/
def structuralSelectors : List (List Elem → Option ℕ) :=
  [fun p => clickCss p fun e => e.tag == "button" && e.typeAttr == "submit",
   fun p => clickCss p fun e => e.tag == "input" && e.typeAttr == "submit"]

/-- The five text pseudo-selectors of the submitSelectors list (automated.js
lines 1150-1154). -/
def textSelectors : List (List Elem → Option ℕ) :=
  [fun p => clickContains p "send",
   fun p => clickContains p "submit",
   fun p => clickContains p "ask",
   fun p => clickContains p "go",
   fun p => clickContains p "enter"]

/-- The literal class and id selectors of the submitSelectors list
(automated.js lines 1155-1159). -/
def classIdSelectors : List (List Elem → Option ℕ) :=
  [fun p => clickCss p fun e => e.className == "send-btn",
   fun p => clickCss p fun e => e.className == "submit-btn",
   fun p => clickCss p fun e => e.idAttr == "send",
   fun p => clickCss p fun e => e.idAttr == "submit",
   fun p => clickCss p fun e => e.idAttr == "send-btn"]

/-- The bare button selector closing the submitSelectors list (automated.js
line 1160). -/
def anyButtonSelector (p : List Elem) : Option ℕ :=
  clickCss p fun e => e.tag == "button"

/-- The primary submitSelectors list (automated.js lines 1147-1161), in
source order: the two structural submit selectors, then the five text
pseudo-selectors, then the literal class and id selectors, then the bare
button fallback. -/
def primarySelectors : List (List Elem → Option ℕ) :=
  structuralSelectors ++ textSelectors ++ classIdSelectors ++
    [anyButtonSelector]

/-- The fallbackSelectors list (automated.js lines 1230-1239), in source
order: attribute-heuristic matchers on onclick, class and id, then
input buttons and role buttons. -/
def fallbackSelectors : List (List Elem → Option ℕ) :=
  [fun p => clickCss p fun e => strContains e.onclick "send",
   fun p => clickCss p fun e => strContains e.onclick "submit",
   fun p => clickCss p fun e => strContains e.className "send",
   fun p => clickCss p fun e => strContains e.className "submit",
   fun p => clickCss p fun e => strContains e.idAttr "send",
   fun p => clickCss p fun e => strContains e.idAttr "submit",
   fun p => clickCss p fun e => e.tag == "input" && e.typeAttr == "button",
   fun p => clickCss p fun e => e.role == "button"]

/-- The complete element selection of createClickWorker: primary selectors,
then the attribute fallbacks, then the final any-clickable attempt; the
first phase that clicks something wins, and none means the interaction-not-
found soft failure (the worker just waits a fallback delay and proceeds to
build its record). -/
def codeSelect (p : List Elem) : Option ℕ :=
  firstSome (primarySelectors ++ fallbackSelectors ++ [clickAnyClickable]) p

/-- Strategy (a) of the specification: exact structural match on submit-
typed controls. -/
def stratStructural (p : List Elem) : Option ℕ :=
  firstSome structuralSelectors p

/-- Strategy (b) of the specification: text-content match against the
configured keyword set. -/
def stratText (p : List Elem) : Option ℕ :=
  firstSome textSelectors p

/-- The literal send and submit class and id selectors that sit inside the
primary list of the code. -/
def stratClassIdLiteral (p : List Elem) : Option ℕ :=
  firstSome classIdSelectors p

/-- Strategy (c) of the specification: attribute-heuristic match on onclick,
class or id containing send or submit (the code appends input buttons and
role buttons to this phase). -/
def stratAttrHeuristic (p : List Elem) : Option ℕ :=
  firstSome fallbackSelectors p

/-- Element selection in the priority order the claim states: structural,
text, attribute heuristic, first clickable. This definition follows the
words of the specification, for comparison with codeSelect. -/
def claimedSelect (p : List Elem) : Option ℕ :=
  firstSome [stratStructural, stratText, stratAttrHeuristic,
    clickAnyClickable] p

/-- Element selection in the order the code actually uses: structural, text,
literal class and id selectors, bare button, attribute heuristics, final
any-clickable. -/
def amendedSelect (p : List Elem) : Option ℕ :=
  firstSome [stratStructural, stratText, stratClassIdLiteral,
    anyButtonSelector, stratAttrHeuristic, clickAnyClickable] p

/-! ## Helper lemmas -/

/-- A modular index into a nonempty list selects a member. -/
lemma getD_mod_mem {α : Type} (l : List α) (k : ℕ) (d : α) (h : 0 < l.length) :
    l.getD (k % l.length) d ∈ l := by
  have hk : k % l.length < l.length := Nat.mod_lt _ h
  rw [List.getD_eq_getElem?_getD, List.getElem?_eq_getElem hk]
  exact List.getElem_mem hk

/-- getLocationTier only ever returns one of the three tier strings. -/
lemma getLocationTier_cases (c : String) :
    getLocationTier c = "tier1" ∨ getLocationTier c = "tier2" ∨
      getLocationTier c = "tier3" := by
  unfold getLocationTier
  cases h1 : tier1Cities.contains c <;> cases h2 : tier2Cities.contains c <;>
    simp [h1, h2]

set_option maxHeartbeats 1600000 in
/-- Every connection drawn from the pool of one of the three reachable tiers
has an allowed type and meets the tier floor. -/
lemma tier_conn_ok (tier : String) (k : ℕ)
    (h : tier = "tier1" ∨ tier = "tier2" ∨ tier = "tier3") :
    (allowedTypes tier).contains (getRandomConnectionType tier k).ctype = true ∧
    tierFloor tier ≤ (getRandomConnectionType tier k).downlink := by
  rcases h with h | h | h <;> subst h
  · have hall : ∀ x ∈ tierFilter "tier1",
        (allowedTypes "tier1").contains x.ctype = true ∧
          tierFloor "tier1" ≤ x.downlink := by decide
    exact hall _ (getD_mod_mem _ k _ (by decide))
  · have hall : ∀ x ∈ tierFilter "tier2",
        (allowedTypes "tier2").contains x.ctype = true ∧
          tierFloor "tier2" ≤ x.downlink := by decide
    exact hall _ (getD_mod_mem _ k _ (by decide))
  · have hall : ∀ x ∈ tierFilter "tier3",
        (allowedTypes "tier3").contains x.ctype = true ∧
          tierFloor "tier3" ≤ x.downlink := by decide
    exact hall _ (getD_mod_mem _ k _ (by decide))

/-- Claim C10: the city-to-tier lookup only ever returns tier1, tier2 or
tier3 and never rural, so for every generated Profile the tier is one of the
three and the rural branch of the connection filter is unreachable from
profile generation (its pool is never the one selected). -/
theorem c10_tier_never_rural (cityName : String) :
    (getLocationTier cityName = "tier1" ∨ getLocationTier cityName = "tier2" ∨
      getLocationTier cityName = "tier3") ∧
    getLocationTier cityName ≠ "rural" ∧
    tierFilter (getLocationTier cityName) ≠ tierFilter "rural" := by
  have h := getLocationTier_cases cityName
  refine ⟨h, ?_, ?_⟩ <;> rcases h with h | h | h <;> rw [h] <;> decide

/-- Claim C6: for every generated Profile the connection type is in the set
allowed for the tier of the city and the downlink meets that tier floor; in
particular a Mumbai profile is tier1 and always gets a connection with type
among fiber, cable, 5g, 4g, wifi and downlink at least 5. -/
theorem c6_connection_matches_tier (cityName : String) (k : ℕ) :
    ((allowedTypes (getLocationTier cityName)).contains
        (getRandomConnectionType (getLocationTier cityName) k).ctype = true ∧
      tierFloor (getLocationTier cityName) ≤
        (getRandomConnectionType (getLocationTier cityName) k).downlink) ∧
    (getLocationTier "Mumbai" = "tier1" ∧
      ["fiber", "cable", "5g", "4g", "wifi"].contains
        (getRandomConnectionType (getLocationTier "Mumbai") k).ctype = true ∧
      (5 : ℚ) ≤ (getRandomConnectionType (getLocationTier "Mumbai") k).downlink) := by
  have hmum : getLocationTier "Mumbai" = "tier1" := by decide
  have h1 := tier_conn_ok (getLocationTier cityName) k (getLocationTier_cases cityName)
  have h2 := tier_conn_ok (getLocationTier "Mumbai") k (getLocationTier_cases "Mumbai")
  rw [hmum] at h2
  refine ⟨h1, hmum, ?_, ?_⟩
  · rw [hmum]; exact h2.1
  · rw [hmum]; exact h2.2

/-- Claim C9: on every exit path of a session worker, in both campaign
variants, the page and browser handles are released exactly when they were
acquired: the finally block closes every acquired handle before the worker
returns, including on launch failure, navigation timeout, interaction
exception and budget-reached termination. -/
theorem c9_handles_released (s : TelemetryState) (o : WorkerOutcome)
    (maxClicks : ℕ) :
    ((createClickWorker s o).pageReleased = (createClickWorker s o).pageAcquired ∧
      (createClickWorker s o).browserReleased =
        (createClickWorker s o).browserAcquired) ∧
    ((createTabWorker s o maxClicks).pageReleased =
        (createTabWorker s o maxClicks).pageAcquired ∧
      (createTabWorker s o maxClicks).browserReleased =
        (createTabWorker s o maxClicks).browserAcquired) := by
  obtain ⟨l, np, nv, it, cs, rp⟩ := o
  cases l <;> cases np <;> cases nv <;>
    simp [createClickWorker, createTabWorker]

/-- Claim C7: a telemetry write error is never fatal: whatever the outcome of
the incremental CSV append and of the periodic snapshot write, the record is
still appended to the in-memory store and the counter still advances, and a
worker running the success path with failing writes completes without
propagating anything to the campaign loop. -/
theorem c7_telemetry_error_nonfatal (s : TelemetryState)
    (csvWriteOk reportWriteOk : Bool) :
    (incrementClickCounter s csvWriteOk reportWriteOk).1.clickReportData.length
        = s.clickReportData.length + 1 ∧
    (incrementClickCounter s csvWriteOk reportWriteOk).1.globalClickCounter
        = s.globalClickCounter + 1 ∧
    (createClickWorker s
        ⟨true, true, true, false, csvWriteOk, reportWriteOk⟩).propagatedToScheduler
      = false ∧
    (createClickWorker s
        ⟨true, true, true, false, csvWriteOk, reportWriteOk⟩).state.clickReportData.length
      = s.clickReportData.length + 1 := by
  simp [incrementClickCounter, addClickRecord, createClickWorker]

/-- Claim C1, counterexample: a worker whose navigation times out (launch and
newPage succeed, goto fails) produces zero SessionRecords, not one; the
failure also does not propagate. This refutes the claim that every failure
path still produces exactly one record. -/
theorem c1_counterexample :
    (createClickWorker ⟨0, [], 0⟩
        ⟨true, true, false, false, true, true⟩).recordsAdded = 0 ∧
    (createClickWorker ⟨0, [], 0⟩
        ⟨true, true, false, false, true, true⟩).state.clickReportData = [] ∧
    (createClickWorker ⟨0, [], 0⟩
        ⟨true, true, false, false, true, true⟩).propagatedToScheduler = false :=
  ⟨rfl, rfl, rfl⟩

/-- Claim C1 as amended: a dispatched worker appends exactly one record when
launch, page creation and navigation all succeed (even if the interaction or
the telemetry writes fail), and zero records when any of those three fail;
it never appends two, and no per-session error propagates to the scheduler
loop. The same holds for the bounded-variant worker. -/
theorem c1_record_multiplicity (s : TelemetryState) (o : WorkerOutcome)
    (maxClicks : ℕ) :
    (createClickWorker s o).state.clickReportData.length
        = s.clickReportData.length +
            (if o.launchOk && o.newPageOk && o.navOk then 1 else 0) ∧
    (createClickWorker s o).recordsAdded
        = (if o.launchOk && o.newPageOk && o.navOk then 1 else 0) ∧
    (createClickWorker s o).recordsAdded ≤ 1 ∧
    (createClickWorker s o).propagatedToScheduler = false ∧
    (createTabWorker s o maxClicks).state.clickReportData.length
        = s.clickReportData.length +
            (if o.launchOk && o.newPageOk && o.navOk then 1 else 0) ∧
    (createTabWorker s o maxClicks).propagatedToScheduler = false := by
  obtain ⟨l, np, nv, it, cs, rp⟩ := o
  cases l <;> cases np <;> cases nv <;>
    simp [createClickWorker, createTabWorker, incrementClickCounter,
      incrementClickCounterBounded, addClickRecord]

/-- Effect of a sequence of completion blocks on the telemetry state: the
counter advances by the number of completions and the report data gains the
consecutive clickNumber values starting right after the initial counter. -/
lemma runCompletions_spec (ws : List ℕ) (s : TelemetryState) :
    (runCompletions ws s).globalClickCounter = s.globalClickCounter + ws.length ∧
    (runCompletions ws s).clickReportData =
      s.clickReportData ++ List.range' (s.globalClickCounter + 1) ws.length := by
  induction ws generalizing s with
  | nil => simp [runCompletions]
  | cons w ws ih =>
    have hstep : runCompletions (w :: ws) s
        = runCompletions ws ((incrementClickCounter s true true).1) := rfl
    obtain ⟨h1, h2⟩ := ih ((incrementClickCounter s true true).1)
    rw [hstep]
    constructor
    · rw [h1]; simp [incrementClickCounter, addClickRecord]; omega
    · rw [h2]
      simp only [incrementClickCounter, addClickRecord, List.range'_succ,
        List.length_cons]
      simp [List.append_assoc]

/-- Claim C2: for any order in which N concurrently completing workers run
their completion blocks (the block being uninterruptible, see
incrementClickCounter), the final counter equals N, the assigned clickNumber
values are exactly 1..N in assignment order with no duplicates and no gaps,
and in particular no two workers ever observe the same pre-increment counter
value. -/
theorem c2_counter_consistency (ws : List ℕ) :
    (runCompletions ws ⟨0, [], 0⟩).globalClickCounter = ws.length ∧
    (runCompletions ws ⟨0, [], 0⟩).clickReportData = List.range' 1 ws.length ∧
    (runCompletions ws ⟨0, [], 0⟩).clickReportData.Nodup ∧
    ∀ m : ℕ, m ∈ (runCompletions ws ⟨0, [], 0⟩).clickReportData ↔
      1 ≤ m ∧ m ≤ ws.length := by
  obtain ⟨h1, h2⟩ := runCompletions_spec ws ⟨0, [], 0⟩
  have h0 : (⟨0, [], 0⟩ : TelemetryState).globalClickCounter = 0 := rfl
  rw [h0] at h1 h2
  rw [List.nil_append] at h2
  refine ⟨by omega, by rw [h2], ?_, ?_⟩
  · rw [h2]; exact List.nodup_range' _ _
  · intro m; rw [h2, List.mem_range'_1]; omega

/-- Invariant of the bounded campaign scheduler: the in-flight count never
exceeds C, and either the budget has not been reached yet or completed plus
in-flight stays below M + C. -/
lemma sched_invariant {M C : ℕ} {s : SchedState}
    (h : SchedReachable M C s) :
    s.inflight ≤ C ∧
      (s.completed < M ∨ s.completed + s.inflight ≤ M + C - 1) := by
  induction h with
  | init => constructor <;> simp
  | step hr hs ih =>
    obtain ⟨ihC, ihD⟩ := ih
    cases hs with
    | dispatch hM hC => constructor <;> simp at * <;> omega
    | completeSuccess h0 => constructor <;> simp at * <;> omega
    | completeFailure h0 => constructor <;> simp at * <;> omega

/-- Claim C3: in a bounded campaign with budget M and concurrency limit C,
in every reachable state with completed count at least M every possible step
strictly decreases the in-flight count (so no new worker is dispatched), and
when the campaign loop exits (no worker in flight, shouldContinue false) the
final completed count lies in the interval M to M + C - 1. -/
theorem c3_bounded_campaign (M C : ℕ) (s : SchedState)
    (hr : SchedReachable M C s) :
    (M ≤ s.completed → ∀ t, SchedStep M C s t → t.inflight < s.inflight) ∧
    (s.inflight = 0 → M ≤ s.completed →
      M ≤ s.completed ∧ s.completed ≤ M + C - 1) := by
  have hinv := sched_invariant hr
  constructor
  · intro hM t hstep
    obtain ⟨hC, hD⟩ := hinv
    cases hstep with
    | dispatch hM2 hC2 => simp at *; omega
    | completeSuccess h0 => simp at *; omega
    | completeFailure h0 => simp at *; omega
  · intro h0 hM
    exact ⟨hM, by omega⟩

/-- Witness for claim C3 at the concrete state reached by the trace
dispatch, dispatch, complete, complete with M = 2 and C = 2. -/
theorem c3_bounded_campaign_witness :
    2 ≤ (⟨2, 0⟩ : SchedState).completed ∧
      (⟨2, 0⟩ : SchedState).completed ≤ 2 + 2 - 1 := by
  have h1 : SchedReachable 2 2 ⟨0, 0⟩ := .init
  have h2 : SchedReachable 2 2 ⟨0, 1⟩ :=
    .step h1 (.dispatch ⟨0, 0⟩ (by decide) (by decide))
  have h3 : SchedReachable 2 2 ⟨0, 2⟩ :=
    .step h2 (.dispatch ⟨0, 1⟩ (by decide) (by decide))
  have h4 : SchedReachable 2 2 ⟨1, 1⟩ :=
    .step h3 (.completeSuccess ⟨0, 2⟩ (by decide))
  have h5 : SchedReachable 2 2 ⟨2, 0⟩ :=
    .step h4 (.completeSuccess ⟨1, 1⟩ (by decide))
  exact (c3_bounded_campaign 2 2 ⟨2, 0⟩ h5).2 rfl (by decide)

/-- Running the dispatch prefix from a state below the budget appends every
URL index to the in-flight and dispatched lists, in order. -/
lemma dispatchPhase_run (l : List ℕ) (M : ℕ) (s : CycleState)
    (hs : s.completed < M) :
    l.foldl (dispatchStep M) s =
      { s with inflight := s.inflight ++ l, dispatched := s.dispatched ++ l } := by
  induction l generalizing s with
  | nil => simp
  | cons i l ih =>
    rw [List.foldl_cons]
    have hstep : dispatchStep M s i =
        { s with inflight := s.inflight ++ [i],
                 dispatched := s.dispatched ++ [i] } := by
      simp [dispatchStep, hs]
    rw [hstep,
      ih ⟨s.completed, s.records, s.inflight ++ [i], s.dispatched ++ [i]⟩ hs]
    simp

/-- With a positive budget, the dispatch prefix of a cycle dispatches all n
first workers in URL-list order and completes nothing. -/
lemma dispatchPhase_spec (n M : ℕ) (hM : 0 < M) :
    dispatchPhase n M = ⟨0, [], List.range n, List.range n⟩ := by
  unfold dispatchPhase
  rw [dispatchPhase_run _ _ _ hM]
  simp

/-- Folding distinct completion events whose URLs are all in flight appends
exactly those URLs to the records, in completion order, and advances the
counter once per completion. -/
lemma completeRun_spec (order : List ℕ) (s : CycleState) (hnd : order.Nodup)
    (hmem : ∀ i ∈ order, i ∈ s.inflight) :
    (order.foldl completeEvent s).records = s.records ++ order ∧
    (order.foldl completeEvent s).completed = s.completed + order.length ∧
    (order.foldl completeEvent s).dispatched = s.dispatched := by
  induction order generalizing s with
  | nil => simp
  | cons i rest ih =>
    have hi : i ∈ s.inflight := hmem i (List.mem_cons_self i rest)
    rw [List.foldl_cons]
    have hstep : completeEvent s i =
        { completed := s.completed + 1, records := s.records ++ [i],
          inflight := s.inflight.erase i, dispatched := s.dispatched } := by
      simp [completeEvent, hi]
    rw [hstep]
    rw [List.nodup_cons] at hnd
    have hmem' : ∀ j ∈ rest, j ∈ s.inflight.erase i := by
      intro j hj
      have hne : j ≠ i := fun h => hnd.1 (h ▸ hj)
      exact (List.mem_erase_of_ne hne).mpr (hmem j (List.mem_cons_of_mem _ hj))
    obtain ⟨h1, h2, h3⟩ := ih
      ⟨s.completed + 1, s.records ++ [i], s.inflight.erase i, s.dispatched⟩
      hnd.2 hmem'
    refine ⟨?_, ?_, ?_⟩
    · rw [h1]; simp
    · rw [h2]; simp; omega
    · rw [h3]

/-- Claim C4, counterexample: one cycle over 3 URLs with per-URL concurrency
1 and budget M = 2, with every worker succeeding in dispatch order, produces
3 SessionRecords, one per URL, and a final count of 3: the per-URL arrows of
the bounded orchestrator run concurrently, all three first workers are
dispatched while the counter is still 0, and every in-flight worker
increments the counter even after the budget is reached. The claim says
exactly 2 records for URL 0 and URL 1 only. -/
theorem c4_counterexample :
    (runCycle 3 2 [0, 1, 2]).records = [0, 1, 2] ∧
    (runCycle 3 2 [0, 1, 2]).records.length = 3 ∧
    (runCycle 3 2 [0, 1, 2]).completed = 3 := by decide

/-- Claim C4 as amended: within one cycle the first session attempts are
dispatched in URL-list order (the dispatched list is exactly 0..n-1 in
increasing order), and in the bounded scenario every dispatched worker
produces one record, so a cycle over n URLs with budget M produces n records
forming a permutation of the URL list, in completion order, rather than
stopping after M. -/
theorem c4_cycle_order (n M : ℕ) (order : List ℕ) (hM : 0 < M)
    (hp : order.Perm (List.range n)) :
    (runCycle n M order).dispatched = List.range n ∧
    List.Pairwise (· < ·) (runCycle n M order).dispatched ∧
    (runCycle n M order).records = order ∧
    (runCycle n M order).records.Perm (List.range n) ∧
    (runCycle n M order).completed = n := by
  have hd := dispatchPhase_spec n M hM
  have hnd : order.Nodup := hp.nodup_iff.mpr (List.nodup_range n)
  have hmem : ∀ i ∈ order, i ∈ (dispatchPhase n M).inflight := by
    intro i hi
    rw [hd]
    simpa using hp.mem_iff.mp hi
  obtain ⟨h1, h2, h3⟩ := completeRun_spec order (dispatchPhase n M) hnd hmem
  unfold runCycle
  rw [hd] at h1 h2 h3 ⊢
  simp only at h1 h2 h3
  refine ⟨?_, ?_, ?_, ?_, ?_⟩
  · rw [h3]
  · rw [h3]; exact List.pairwise_lt_range n
  · rw [h1]; simp
  · rw [h1]; simpa using hp
  · rw [h2]; simp [hp.length_eq]

/-- Witness for claim C4 at the concrete scenario with 3 URLs, budget 2 and
completion order 2, 0, 1. -/
theorem c4_cycle_order_witness :
    (runCycle 3 2 [2, 0, 1]).dispatched = [0, 1, 2] ∧
    (runCycle 3 2 [2, 0, 1]).records = [2, 0, 1] ∧
    (runCycle 3 2 [2, 0, 1]).completed = 3 := by
  obtain ⟨h1, _, h3, _, h5⟩ :=
    c4_cycle_order 3 2 [2, 0, 1] (by decide) (by decide)
  exact ⟨by rw [h1]; decide, h3, h5⟩

/-- One axis of the coordinate jitter stays within half of the 0.01 degree
jitter window. -/
lemma jitter_axis_bound (x r : ℚ) (h0 : 0 ≤ r) (h1 : r < 1) :
    |x + (r - mkRat 1 2) * mkRat 1 100 - x| ≤ 1 / 200 := by
  have hhalf : (mkRat 1 2 : ℚ) = 1 / 2 := by norm_num [mkRat]
  have hcent : (mkRat 1 100 : ℚ) = 1 / 100 := by norm_num [mkRat]
  rw [hhalf, hcent, abs_le]
  constructor <;> nlinarith

/-- Claim C5 as amended: for every generated Profile whose city has an entry
in the canonical coordinates table, each coordinate axis lies within 0.005
degrees of that canonical entry; cities drawn from the IP table that are
missing from the coordinates table instead fall back to the Mumbai point
(see the counterexample). -/
theorem c5_jitter_radius (i octet : ℕ) (r1 r2 r3 r4 : ℚ)
    (h1a : 0 ≤ r1) (h1b : r1 < 1) (_h2a : 0 ≤ r2) (_h2b : r2 < 1)
    (_h3a : 0 ≤ r3) (_h3b : r3 < 1) (h4a : 0 ≤ r4) (h4b : r4 < 1)
    (c : ℚ × ℚ)
    (hc : coordLookup (generateIndianIPData i octet r1 r2 r3 r4).city = some c) :
    |(generateIndianIPData i octet r1 r2 r3 r4).latitude - c.1| ≤ 1 / 200 ∧
    |(generateIndianIPData i octet r1 r2 r3 r4).longitude - c.2| ≤ 1 / 200 := by
  have hcity : (generateIndianIPData i octet r1 r2 r3 r4).city
      = (indianIPData.getD (i % indianIPData.length)
          ⟨"", "", "", "", "", ""⟩).city := rfl
  rw [hcity] at hc
  have hlat : (generateIndianIPData i octet r1 r2 r3 r4).latitude
      = c.1 + (r1 - mkRat 1 2) * mkRat 1 100 := by
    show ((coordLookup ((indianIPData.getD (i % indianIPData.length)
        ⟨"", "", "", "", "", ""⟩).city)).getD
          (mkRat 190760 10000, mkRat 728777 10000)).1
        + (r1 - mkRat 1 2) * mkRat 1 100 = _
    rw [hc]
    rfl
  have hlng : (generateIndianIPData i octet r1 r2 r3 r4).longitude
      = c.2 + (r4 - mkRat 1 2) * mkRat 1 100 := by
    show ((coordLookup ((indianIPData.getD (i % indianIPData.length)
        ⟨"", "", "", "", "", ""⟩).city)).getD
          (mkRat 190760 10000, mkRat 728777 10000)).2
        + (r4 - mkRat 1 2) * mkRat 1 100 = _
    rw [hc]
    rfl
  rw [hlat, hlng]
  exact ⟨jitter_axis_bound c.1 r1 h1a h1b, jitter_axis_bound c.2 r4 h4a h4b⟩

/-- Witness for claim C5 at the first IP entry (Mumbai) with all four draws
equal to one half. -/
theorem c5_jitter_radius_witness :
    |(generateIndianIPData 0 0 (mkRat 1 2) (mkRat 1 2) (mkRat 1 2)
        (mkRat 1 2)).latitude - mkRat 190760 10000| ≤ 1 / 200 ∧
    |(generateIndianIPData 0 0 (mkRat 1 2) (mkRat 1 2) (mkRat 1 2)
        (mkRat 1 2)).longitude - mkRat 728777 10000| ≤ 1 / 200 :=
  c5_jitter_radius 0 0 (mkRat 1 2) (mkRat 1 2) (mkRat 1 2) (mkRat 1 2)
    (by decide) (by decide) (by decide) (by decide)
    (by decide) (by decide) (by decide) (by decide)
    (mkRat 190760 10000, mkRat 728777 10000) rfl

/-- Claim C5, counterexample: the IP table can draw the city Delhi (entry
13), which has no entry of its own in the canonical coordinates table, so
the generated coordinates silently fall back to the Mumbai canonical point;
with centered draws the produced latitude is exactly the Mumbai latitude,
which is about 9.6 degrees away from the latitude the table assigns to the
New Delhi region, far outside the 0.005 degree jitter radius. Hence it is
false that every drawable city yields coordinates within the jitter radius
of the canonical coordinate of its own city. -/
theorem c5_counterexample :
    (indianIPData.getD 13 ⟨"", "", "", "", "", ""⟩).city = "Delhi" ∧
    "Delhi" ∈ indianIPData.map IPEntry.city ∧
    coordLookup "Delhi" = none ∧
    (generateIndianIPData 13 0 (mkRat 1 2) (mkRat 1 2) (mkRat 1 2)
        (mkRat 1 2)).city = "Delhi" ∧
    (generateIndianIPData 13 0 (mkRat 1 2) (mkRat 1 2) (mkRat 1 2)
        (mkRat 1 2)).latitude = mkRat 190760 10000 ∧
    coordLookup "New Delhi" = some (mkRat 287041 10000, mkRat 771025 10000) ∧
    ¬ |(generateIndianIPData 13 0 (mkRat 1 2) (mkRat 1 2) (mkRat 1 2)
        (mkRat 1 2)).latitude - mkRat 287041 10000| ≤ 1 / 200 := by
  have h1 : (generateIndianIPData 13 0 (mkRat 1 2) (mkRat 1 2) (mkRat 1 2)
      (mkRat 1 2)).latitude
      = ((coordLookup "Delhi").getD
          (mkRat 190760 10000, mkRat 728777 10000)).1
        + (mkRat 1 2 - mkRat 1 2) * mkRat 1 100 := rfl
  have hnone : coordLookup "Delhi" = none := rfl
  have hlatval : (generateIndianIPData 13 0 (mkRat 1 2) (mkRat 1 2)
      (mkRat 1 2) (mkRat 1 2)).latitude = mkRat 190760 10000 := by
    rw [h1, hnone]
    norm_num [mkRat]
  refine ⟨rfl, by decide, hnone, rfl, hlatval, rfl, ?_⟩
  rw [hlatval]
  intro habs
  rw [abs_le] at habs
  norm_num [mkRat] at habs

/-- Evaluating a concatenated selector list tries the first block first. -/
lemma firstSome_append (fs gs : List (List Elem → Option ℕ)) (p : List Elem) :
    firstSome (fs ++ gs) p =
      match firstSome fs p with
      | some i => some i
      | none => firstSome gs p := by
  induction fs with
  | nil => simp [firstSome]
  | cons f fs ih =>
    simp only [List.cons_append, firstSome]
    cases f p <;> simp [ih]

/-- Claim C8 as amended: the element selection of createClickWorker is the
ordered evaluation of: (a) structural submit controls, (b) text-keyword
buttons, then the literal send and submit class and id selectors, then the
generic any-button fallback, and only then (c) the attribute heuristics and
(d) the final any-clickable fallback; the first strategy that clicks wins,
and none of them matching is the interaction-not-found soft failure. This
differs from the claimed order in that the generic button fallback runs
before the attribute heuristics. -/
theorem c8_strategy_order (p : List Elem) : codeSelect p = amendedSelect p := by
  unfold codeSelect amendedSelect primarySelectors stratStructural stratText
    stratClassIdLiteral stratAttrHeuristic
  simp only [List.append_assoc]
  rw [firstSome_append, firstSome_append, firstSome_append, firstSome_append,
    firstSome_append]
  simp only [firstSome]
  cases firstSome structuralSelectors p <;>
    cases firstSome textSelectors p <;>
    cases firstSome classIdSelectors p <;>
    cases anyButtonSelector p <;>
    cases firstSome fallbackSelectors p <;>
    cases clickAnyClickable p <;> rfl

/-- Claim C8, counterexample: on a page holding a plain clickable button
with no submit typing, no keyword text and no send or submit attributes,
followed by a div whose onclick contains send, the code clicks the plain
button (index 0) through the bare button selector of the primary list, while
the claimed priority order, which runs the attribute heuristic before any
generic fallback, selects the div (index 1). The claimed evaluation order is
therefore not the one the code implements. -/
theorem c8_counterexample :
    codeSelect [⟨"button", "", "ok", "", "", "", "", true⟩,
      ⟨"div", "", "", "sendForm()", "", "", "", true⟩] = some 0 ∧
    claimedSelect [⟨"button", "", "ok", "", "", "", "", true⟩,
      ⟨"div", "", "", "sendForm()", "", "", "", true⟩] = some 1 ∧
    codeSelect [⟨"button", "", "ok", "", "", "", "", true⟩,
        ⟨"div", "", "", "sendForm()", "", "", "", true⟩] ≠
      claimedSelect [⟨"button", "", "ok", "", "", "", "", true⟩,
        ⟨"div", "", "", "sendForm()", "", "", "", true⟩] := by
  refine ⟨by decide, by decide, by decide⟩
